import Mathlib

/-!
Shallow embedding of the risk-assessment and action-dispatch pipeline:
the structured-event validator, anomaly detector, risk classifier and
action decision of `src/agents/json_agent.py`, the dispatch table of
`src/agents/action_router.py`, and the append-only activity store of
`src/memory/memory_store.py` with the shared logging contract of
`src/agents/base_agent.py`.

Modelling conventions:
* Python floats are modelled as `Rat` (the claims only compare amounts
  against the integral threshold 10000.00, so no floating-point
  behaviour is at stake); the textual rendering of a float inside an
  anomaly tag is modelled by `floatRepr`.
* `datetime.fromisoformat(ts.replace('Z', '+00:00'))` is modelled by an
  abstract parameter `parseTs : String → ParseOutcome` with three
  outcomes: a `ValueError`, a timezone-naive datetime, or an aware
  datetime at a given second count; the current time
  `datetime.now(timezone.utc)` is the parameter `now : Int`.  Subtracting
  a naive datetime from the aware `now` raises a `TypeError` that
  `except ValueError` does not catch, so the detector — and `process`,
  whose `except ValidationError` does not catch it either — propagates
  that fault; both are therefore modelled in `Except String`, with
  `Except.error` the uncaught Python exception.
* Python's substring operator `term in a` is modelled by `strContains`,
  and dictionaries with fixed literal keys are modelled as functions
  returning `Option` values.
* Side effects on the activity log performed while computing a result
  are elided where a claim does not mention them; the store itself is
  modelled explicitly for the claims about it.
-/

/-- Does the character list `s` start with the character list `pat`? -/
def listStartsWith : List Char → List Char → Bool
  | _, [] => true
  | [], _ :: _ => false
  | a :: s, b :: pat => a == b && listStartsWith s pat

/-- Does `pat` occur as a contiguous sublist of `s`? -/
def listContainsSub : List Char → List Char → Bool
  | [], pat => pat.isEmpty
  | a :: s, pat => listStartsWith (a :: s) pat || listContainsSub s pat

/-- Model of the Python substring test `pat in s`. -/
def strContains (s pat : String) : Bool :=
  listContainsSub s.data pat.data

/-- Does the string `s` start with the string `pat`? -/
def strStarts (s pat : String) : Bool :=
  listStartsWith s.data pat.data

/-- Model of the `DeviceInfo` pydantic model in `src/agents/json_agent.py`. -/
structure DeviceInfo where
  browser : String
  os : String
  ip_address : Option String := none
deriving DecidableEq

/-- Model of the `WebhookData` pydantic model in `src/agents/json_agent.py`. -/
structure WebhookData where
  id : String
  user_id : String
  ip_address : String
  attempted_resource : String
  amount : Option Rat := none
  location : Option String := none
  device_info : Option DeviceInfo := none
deriving DecidableEq

/-- Model of the `WebhookSchema` pydantic model in `src/agents/json_agent.py`. -/
structure WebhookSchema where
  event_type : String
  timestamp : String
  source : String
  data : WebhookData
deriving DecidableEq

/-- Untyped JSON-like value handed to the validator (the raw webhook body). -/
inductive JVal where
  | jstr : String → JVal
  | jnum : Rat → JVal
  | jbool : Bool → JVal
  | jnull : JVal
  | jobj : List (String × JVal) → JVal
  | jarr : List JVal → JVal

/-- Error-accumulating conjunction of two validation results, mirroring how
pydantic collects the errors of every field rather than stopping at the
first one. -/
def andE {α β : Type} : Except (List String) α → Except (List String) β →
    Except (List String) (α × β)
  | .ok a, .ok b => .ok (a, b)
  | .ok _, .error e => .error e
  | .error e, .ok _ => .error e
  | .error e, .error f => .error (e ++ f)

/-- Validate a required string field of a JSON object. -/
def vReqStr (fields : List (String × JVal)) (name : String) :
    Except (List String) String :=
  match fields.lookup name with
  | none => .error [name ++ ": field required"]
  | some (JVal.jstr s) => .ok s
  | some _ => .error [name ++ ": str type expected"]

/-- Validate an optional string field of a JSON object. -/
def vOptStr (fields : List (String × JVal)) (name : String) :
    Except (List String) (Option String) :=
  match fields.lookup name with
  | none => .ok none
  | some JVal.jnull => .ok none
  | some (JVal.jstr s) => .ok (some s)
  | some _ => .error [name ++ ": str type expected"]

/-- Validate an optional float field of a JSON object. -/
def vOptNum (fields : List (String × JVal)) (name : String) :
    Except (List String) (Option Rat) :=
  match fields.lookup name with
  | none => .ok none
  | some JVal.jnull => .ok none
  | some (JVal.jnum q) => .ok (some q)
  | some _ => .error [name ++ ": value is not a valid float"]

/-- Validate the fields of a `DeviceInfo` object. -/
def vDevice (fields : List (String × JVal)) : Except (List String) DeviceInfo :=
  (andE (andE (vReqStr fields "browser") (vReqStr fields "os"))
      (vOptStr fields "ip_address")).map
    (fun x => { browser := x.1.1, os := x.1.2, ip_address := x.2 })

/-- Validate the optional `device_info` field of the `data` object. -/
def vOptDevice (fields : List (String × JVal)) (name : String) :
    Except (List String) (Option DeviceInfo) :=
  match fields.lookup name with
  | none => .ok none
  | some JVal.jnull => .ok none
  | some (JVal.jobj fs) =>
      match vDevice fs with
      | .ok d => .ok (some d)
      | .error e => .error (e.map (fun m => name ++ "." ++ m))
  | some _ => .error [name ++ ": value is not a valid dict"]

/-- Validate the fields of the nested `data` object (`WebhookData`). -/
def vData (fields : List (String × JVal)) : Except (List String) WebhookData :=
  (andE (andE (andE (andE (vReqStr fields "id") (vReqStr fields "user_id"))
        (andE (vReqStr fields "ip_address") (vReqStr fields "attempted_resource")))
      (andE (vOptNum fields "amount") (vOptStr fields "location")))
      (vOptDevice fields "device_info")).map
    (fun x =>
      { id := x.1.1.1.1, user_id := x.1.1.1.2, ip_address := x.1.1.2.1,
        attempted_resource := x.1.1.2.2, amount := x.1.2.1, location := x.1.2.2,
        device_info := x.2 })

/-- Model of `WebhookSchema(**input_data)`: pydantic validation of the raw
map against the schema, collecting one error message per missing or
mistyped field (the numeric/string coercions of the library are not
modelled; a field conforms exactly when its JSON type matches).  The
nested `data` object is validated by `vDataField`, whose errors carry the
`data.` location that pydantic reports for nested fields. -/
def vDataField (raw : List (String × JVal)) : Except (List String) WebhookData :=
  match raw.lookup "data" with
  | none => .error ["data: field required"]
  | some (JVal.jobj fs) =>
      match vData fs with
      | .ok w => .ok w
      | .error e => .error (e.map (fun m => "data." ++ m))
  | some _ => .error ["data: value is not a valid dict"]

/-- Kept as the top-level validator (see the doc comment above
`vDataField`): validates the three top-level string fields together with
the nested `data` object, accumulating all errors. -/
def validate (raw : List (String × JVal)) : Except (List String) WebhookSchema :=
  (andE (andE (andE (vReqStr raw "event_type") (vReqStr raw "timestamp"))
      (vReqStr raw "source")) (vDataField raw)).map
    (fun x =>
      { event_type := x.1.1.1, timestamp := x.1.1.2, source := x.1.2,
        data := x.2 })

/-- Model of the `self.suspicious_events` dictionary of `JSONAgent`:
event types considered suspicious mapped to their base risk level. -/
def suspicious_events (event_type : String) : Option String :=
  if event_type = "unauthorized_access" then some "high"
  else if event_type = "data_breach" then some "critical"
  else if event_type = "system_compromise" then some "critical"
  else if event_type = "failed_login" then some "medium"
  else if event_type = "suspicious_activity" then some "high"
  else none

/-- Model of `self.risk_thresholds["amount"]`. -/
def amount_threshold : Rat := 10000

/-- Model of `self.risk_thresholds["suspicious_locations"]`. -/
def suspicious_locations : List String := ["Unknown", "High Risk Country"]

/-- Textual rendering of a float value inside an anomaly tag
(`f"high_value: {amount}"`). -/
def floatRepr (a : Rat) : String := toString a

/-- Outcome of `datetime.fromisoformat(timestamp.replace('Z', '+00:00'))`:
the call raises `ValueError` (`parseError`), returns a timezone-naive
datetime (`naiveParse` — a string such as `2024-01-01T00:00:00`, with
neither `Z` nor an offset), or returns an offset-aware datetime at `t`
seconds (`awareParse t`). -/
inductive ParseOutcome where
  | parseError : ParseOutcome
  | naiveParse : ParseOutcome
  | awareParse : Int → ParseOutcome
deriving DecidableEq

/-- Message of the uncaught `TypeError` raised by
`current_time - event_time` when the parsed `event_time` is naive while
`current_time` is aware. -/
def naive_sub_type_error : String :=
  "TypeError: cannot subtract offset-naive and offset-aware datetimes"

/-- Model of `JSONAgent._check_for_anomalies`: sequentially evaluates the
five detection rules, appending at most one tag each.  The try/except of
rule 2 catches only `ValueError` (→ `invalid_timestamp`); a timestamp
parsing to a naive datetime makes the aware-minus-naive subtraction raise
`TypeError`, which is not caught and propagates out (the `Except.error`
result), skipping rules 3 to 5. -/
def check_for_anomalies (parseTs : String → ParseOutcome) (now : Int)
    (data : WebhookSchema) : Except String (List String) :=
  let anomalies : List String := []
  let anomalies :=
    if (suspicious_events data.event_type).isSome then
      anomalies ++ ["suspicious_event: " ++ data.event_type]
    else anomalies
  let afterTs : Except String (List String) :=
    match parseTs data.timestamp with
    | ParseOutcome.parseError => Except.ok (anomalies ++ ["invalid_timestamp"])
    | ParseOutcome.naiveParse => Except.error naive_sub_type_error
    | ParseOutcome.awareParse t =>
        Except.ok (if now - t > 3600 then anomalies ++ ["stale_event"]
          else anomalies)
  match afterTs with
  | Except.error e => Except.error e
  | Except.ok anomalies =>
      let anomalies :=
        match data.data.amount with
        | some a =>
            if a > amount_threshold then
              anomalies ++ ["high_value: " ++ floatRepr a]
            else anomalies
        | none => anomalies
      let anomalies :=
        match data.data.location with
        | some l =>
            if l ∈ suspicious_locations then
              anomalies ++ ["suspicious_location: " ++ l]
            else anomalies
        | none => anomalies
      let anomalies :=
        match data.data.device_info with
        | some di =>
            if di.ip_address = some data.data.ip_address then
              anomalies ++ ["ip_mismatch"]
            else anomalies
        | none => anomalies
      Except.ok anomalies

/-- Model of the three substring terms counted by
`JSONAgent._determine_risk_level`. -/
def high_risk_terms : List String :=
  ["suspicious_event", "high_value", "suspicious_location"]

/-- Model of `JSONAgent._determine_risk_level`. -/
def determine_risk_level (anomalies : List String) (data : WebhookSchema) :
    String :=
  if anomalies.isEmpty then "low"
  else if suspicious_events data.event_type = some "critical" then "critical"
  else
    let high_risk_count :=
      anomalies.countP (fun a => high_risk_terms.any (fun term => strContains a term))
    if high_risk_count ≥ 2 then "high"
    else if high_risk_count = 1 then "medium"
    else "low"

/-- Model of `JSONAgent._determine_action`. -/
def determine_action (risk_level : String) (data : WebhookSchema) :
    Option String :=
  if risk_level = "critical" then some "POST /risk_alert/critical"
  else if risk_level = "high" then some "POST /risk_alert/high"
  else if risk_level = "medium" ∧ (suspicious_events data.event_type).isSome then
    some "POST /risk_alert/medium"
  else none

/-- Result dictionary returned by `JSONAgent.process`. -/
structure ProcessResult where
  is_valid : Bool
  data : Option WebhookSchema
  errors : Option (List String)
  anomalies : List String
  risk_level : String
  action_triggered : Option String
deriving DecidableEq

/-- Model of `JSONAgent.process`: validation, anomaly detection, risk
classification and action decision; a `ValidationError` is recovered into
the fixed high-risk result, while the uncaught `TypeError` of the
detector (naive timestamp) propagates to the caller — `except
ValidationError` does not catch it. -/
def process (parseTs : String → ParseOutcome) (now : Int)
    (raw : List (String × JVal)) : Except String ProcessResult :=
  match validate raw with
  | .ok validated_data =>
      match check_for_anomalies parseTs now validated_data with
      | .error e => .error e
      | .ok anomalies =>
          let risk_level := determine_risk_level anomalies validated_data
          let action_triggered := determine_action risk_level validated_data
          .ok { is_valid := true, data := some validated_data, errors := none,
                anomalies := anomalies, risk_level := risk_level,
                action_triggered := action_triggered }
  | .error e =>
      .ok { is_valid := false, data := none, errors := some e,
            anomalies := ["schema_validation_failed"], risk_level := "high",
            action_triggered := some "POST /risk_alert" }

/-- Result dictionary returned by `ActionRouter.process` or one of its
handlers; absent dictionary keys are `none`. -/
structure DispatchResult where
  status : String
  action : Option String := none
  error : Option String := none
  action_simulated : Option String := none
  message : Option String := none
  ticket_id : Option String := none
  escalation_ref : Option String := none
  compliance_flagged : Option Bool := none
deriving DecidableEq

/-- Model of `ActionRouter._handle_crm_escalation`; `serHash` is the
outcome of `hash(json.dumps(data))`, which raises when the payload is not
serializable. -/
def handle_crm_escalation (serHash : Except String Int) :
    Except String DispatchResult :=
  match serHash with
  | .error e => .error e
  | .ok h =>
      .ok { status := "success",
            action_simulated := some "POST to CRM API",
            message := some "Simulated: Escalation ticket created in CRM",
            ticket_id := some ("CRM-TICKET-" ++ toString (h % 100000)) }

/-- Model of `ActionRouter._handle_general_risk_alert`. -/
def handle_general_risk_alert (serHash : Except String Int) :
    Except String DispatchResult :=
  .ok { status := "success",
        action_simulated := some "POST to Risk Alert System (General)",
        message := some "Simulated: General risk alert logged or notification sent." }

/-- Model of `ActionRouter._handle_high_risk_alert`. -/
def handle_high_risk_alert (serHash : Except String Int) :
    Except String DispatchResult :=
  match serHash with
  | .error e => .error e
  | .ok h =>
      .ok { status := "success",
            action_simulated := some "POST to Risk Alert System (High) / Escalation System",
            message := some "Simulated: High risk issue escalated.",
            escalation_ref := some ("ESCALATION-" ++ toString (h % 100000)) }

/-- Model of `ActionRouter._handle_critical_risk_alert`. -/
def handle_critical_risk_alert (serHash : Except String Int) :
    Except String DispatchResult :=
  match serHash with
  | .error e => .error e
  | .ok h =>
      .ok { status := "success",
            action_simulated := some "POST to Risk Alert System (Critical) / Ticketing / Compliance System",
            message := some "Simulated: Critical risk ticket created and compliance flagged.",
            ticket_id := some ("CRITICAL-TICKET-" ++ toString (h % 100000)),
            compliance_flagged := some true }

/-- Model of the `self.action_handlers` dictionary of `ActionRouter`
(`dict.get` as a function returning `Option`). -/
def action_handlers (a : String) :
    Option (Except String Int → Except String DispatchResult) :=
  if a = "POST /crm/escalate" then some handle_crm_escalation
  else if a = "POST /risk_alert" then some handle_general_risk_alert
  else if a = "POST /risk_alert/high" then some handle_high_risk_alert
  else if a = "POST /risk_alert/critical" then some handle_critical_risk_alert
  else none

/-- Model of `ActionRouter.process`: Python's `if not action_triggered`
treats both a missing key and an empty string as falsy; a raised handler
exception is the `.error` case of the handler's result. -/
def router_process (serHash : Except String Int)
    (action_triggered : Option String) : DispatchResult :=
  match action_triggered with
  | none => { status := "no_action_needed" }
  | some a =>
      if a = "" then { status := "no_action_needed" }
      else
        match action_handlers a with
        | none => { status := "unknown_action", action := some a }
        | some handler =>
            match handler serHash with
            | .ok result => result
            | .error e => { status := "error", action := some a, error := some e }

/-- Model of the `ActivityLog` pydantic model of `src/memory/memory_store.py`;
the `classification` and `extracted_fields` dictionaries are abstracted to
string association lists (their contents are irrelevant to the claims, and
the JSON serialization round-trip of the store is assumed faithful). -/
structure ActivityLog where
  source : String
  timestamp : String
  classification : List (String × String)
  extracted_fields : List (String × String)
  action_triggered : Option String := none
  agent_trace : List String
deriving DecidableEq

/-- Model of the `activity` sqlite table of `MemoryStore`: rows paired with
their `AUTOINCREMENT` primary key, and the next key to be assigned
(sqlite assigns 1, 2, 3, ...). -/
structure MemoryStore where
  rows : List (Nat × ActivityLog) := []
  next_id : Nat := 1
deriving DecidableEq

/-- Model of `MemoryStore.log_activity`: INSERT a new row and return its
`lastrowid`. -/
def store_log_activity (s : MemoryStore) (activity : ActivityLog) :
    Nat × MemoryStore :=
  (s.next_id,
   { rows := s.rows ++ [(s.next_id, activity)], next_id := s.next_id + 1 })

/-- Model of `MemoryStore.get_activity`: SELECT the row with the given
primary key. -/
def get_activity (s : MemoryStore) (activity_id : Nat) : Option ActivityLog :=
  s.rows.lookup activity_id

/-- Store invariant: every stored row id is below the next id to be
assigned (true of the empty store and preserved by every append). -/
def ids_bounded (s : MemoryStore) : Prop :=
  ∀ p ∈ s.rows, p.1 < s.next_id

/-- Model of `BaseAgent.log_activity`: prepends the agent's name to the
supplied trace (or uses the one-element trace `[name]`), stamps the record
with `datetime.utcnow().isoformat() + 'Z'` (the `isoformat` output is the
abstract parameter `utcnow_iso`), and appends it to the store. -/
def base_log_activity (name : String) (utcnow_iso : String) (source : String)
    (classification : List (String × String))
    (extracted_fields : List (String × String))
    (action_triggered : Option String) (agent_trace : Option (List String))
    (s : MemoryStore) : Nat × MemoryStore :=
  let trace :=
    match agent_trace with
    | none => [name]
    | some t => name :: t
  store_log_activity s
    { source := source, timestamp := utcnow_iso ++ "Z",
      classification := classification, extracted_fields := extracted_fields,
      action_triggered := action_triggered, agent_trace := trace }

/-- Model of `BaseAgent._add_to_trace`: read the record with the given id,
append `agent_name` to its `agent_trace` in memory, and re-log it (which
INSERTs a fresh row rather than updating in place). -/
def add_to_trace (s : MemoryStore) (activity_id : Nat) (agent_name : String) :
    MemoryStore :=
  match get_activity s activity_id with
  | none => s
  | some activity =>
      (store_log_activity s
        { activity with agent_trace := activity.agent_trace ++ [agent_name] }).2

/-- Detection rule 1 (event-type check) in isolation. -/
def rule_event (data : WebhookSchema) : List String :=
  if (suspicious_events data.event_type).isSome then
    ["suspicious_event: " ++ data.event_type]
  else []

/-- Detection rule 2 (timestamp check) in isolation: `ValueError` is
caught into `invalid_timestamp`, an aware parse runs the staleness check,
and a naive parse raises the uncaught `TypeError`. -/
def rule_timestamp (parseTs : String → ParseOutcome) (now : Int)
    (data : WebhookSchema) : Except String (List String) :=
  match parseTs data.timestamp with
  | ParseOutcome.parseError => Except.ok ["invalid_timestamp"]
  | ParseOutcome.naiveParse => Except.error naive_sub_type_error
  | ParseOutcome.awareParse t =>
      Except.ok (if now - t > 3600 then ["stale_event"] else [])

/-- Detection rule 3 (amount check) in isolation. -/
def rule_amount (data : WebhookSchema) : List String :=
  match data.data.amount with
  | some a => if a > amount_threshold then ["high_value: " ++ floatRepr a] else []
  | none => []

/-- Detection rule 4 (location check) in isolation. -/
def rule_location (data : WebhookSchema) : List String :=
  match data.data.location with
  | some l => if l ∈ suspicious_locations then ["suspicious_location: " ++ l] else []
  | none => []

/-- Detection rule 5 (device/IP check) in isolation. -/
def rule_device (data : WebhookSchema) : List String :=
  match data.data.device_info with
  | some di => if di.ip_address = some data.data.ip_address then ["ip_mismatch"] else []
  | none => []

/-- Spec-side notion used by the risk classifier: a tag is counted when its
kind is `suspicious_event`, `high_value` or `suspicious_location`, read off
from the tag's leading kind name. -/
def counted_kind (t : String) : Bool :=
  strStarts t "suspicious_event" || strStarts t "high_value" ||
    strStarts t "suspicious_location"

theorem listStartsWith_nil (s : List Char) : listStartsWith s [] = true := by
  cases s <;> rfl

theorem listStartsWith_refl (p : List Char) : listStartsWith p p = true := by
  induction p with
  | nil => rfl
  | cons a s ih => simp [listStartsWith, ih]

theorem listStartsWith_append_of (s p r : List Char)
    (h : listStartsWith s p = true) : listStartsWith (s ++ r) p = true := by
  induction p generalizing s with
  | nil => exact listStartsWith_nil _
  | cons b bs ih =>
      cases s with
      | nil => simp [listStartsWith] at h
      | cons a as =>
          simp only [listStartsWith, Bool.and_eq_true] at h
          simp only [List.cons_append, listStartsWith, Bool.and_eq_true]
          exact ⟨h.1, ih as h.2⟩

theorem listStartsWith_append_self (p r : List Char) :
    listStartsWith (p ++ r) p = true :=
  listStartsWith_append_of p p r (listStartsWith_refl p)

theorem listContainsSub_of_starts (s p : List Char)
    (h : listStartsWith s p = true) : listContainsSub s p = true := by
  cases s with
  | nil =>
      cases p with
      | nil => rfl
      | cons b bs => simp [listStartsWith] at h
  | cons a as => simp [listContainsSub, h]

/-- If the string `q` starts with `pat`, then any extension `q ++ x`
contains `pat` as a substring. -/
theorem strContains_of_starts_append (q x pat : String)
    (h : listStartsWith q.data pat.data = true) :
    strContains (q ++ x) pat = true := by
  unfold strContains
  rw [String.data_append]
  exact listContainsSub_of_starts _ _ (listStartsWith_append_of _ _ _ h)

/-- If the string `q` starts with `pat`, then any extension `q ++ x`
starts with `pat`. -/
theorem strStarts_of_starts_append (q x pat : String)
    (h : listStartsWith q.data pat.data = true) :
    strStarts (q ++ x) pat = true := by
  unfold strStarts
  rw [String.data_append]
  exact listStartsWith_append_of _ _ _ h

/-- A string that does not start with `q` is different from every
extension of `q`. -/
theorem append_ne_of_starts_false (q x r : String)
    (h : listStartsWith r.data q.data = false) : q ++ x ≠ r := by
  intro he
  rw [← he, String.data_append, listStartsWith_append_self] at h
  exact Bool.true_eq_false.mp h

/-- On a run where rule 2 does not raise, the anomaly detector is the
concatenation of its five independent rules in the fixed source order;
when rule 2 raises, the fault propagates and nothing is returned. -/
theorem check_decomp (parseTs : String → ParseOutcome) (now : Int)
    (v : WebhookSchema) :
    check_for_anomalies parseTs now v =
      (rule_timestamp parseTs now v).map
        (fun ts => rule_event v ++ ts ++ rule_amount v ++
          rule_location v ++ rule_device v) := by
  unfold check_for_anomalies rule_event rule_timestamp rule_amount
    rule_location rule_device
  rcases v with ⟨et, ts, src, d⟩
  rcases d with ⟨i, u, ip, ar, am, loc, di⟩
  dsimp only
  rcases parseTs ts with _ | _ | t <;>
    rcases suspicious_events et with _ | sev <;>
    rcases am with _ | a <;> rcases loc with _ | l <;> rcases di with _ | dev <;>
    dsimp only [Except.map] <;> (repeat' split) <;> simp [List.append_assoc]

theorem map_eq_ok_iff {α β : Type} (f : α → β) (x : Except String α) (b : β)
    (h : x.map f = Except.ok b) : ∃ a, x = Except.ok a ∧ b = f a := by
  cases x with
  | error e => simp [Except.map] at h
  | ok a => exact ⟨a, rfl, (Except.ok.inj h).symm⟩

/-- Every tag rule 2 can return (when it does not raise) is `stale_event`
or `invalid_timestamp`. -/
theorem rule_timestamp_ok_mem (parseTs : String → ParseOutcome) (now : Int)
    (v : WebhookSchema) (ts : List String) (t : String)
    (h : rule_timestamp parseTs now v = Except.ok ts) (ht : t ∈ ts) :
    t = "stale_event" ∨ t = "invalid_timestamp" := by
  unfold rule_timestamp at h
  split at h
  · rw [← Except.ok.inj h] at ht
    simp at ht
    exact Or.inr ht
  · exact absurd h (by simp)
  · rw [← Except.ok.inj h] at ht
    split at ht
    · simp at ht
      exact Or.inl ht
    · simp at ht

theorem counted_any_of_pre (q x pat : String) (hpat : pat ∈ high_risk_terms)
    (h : listStartsWith q.data pat.data = true) :
    high_risk_terms.any (fun term => strContains (q ++ x) term) = true := by
  rw [List.any_eq_true]
  exact ⟨pat, hpat, strContains_of_starts_append _ _ _ h⟩

theorem counted_kind_of_pre (q x pat : String) (hpat : pat ∈ high_risk_terms)
    (h : listStartsWith q.data pat.data = true) :
    counted_kind (q ++ x) = true := by
  unfold counted_kind
  have hs := strStarts_of_starts_append q x pat h
  fin_cases hpat <;> simp_all

/-- On every tag the detector can emit on a run that returns, the
substring-based count of `_determine_risk_level` agrees with the
spec-side kind of the tag. -/
theorem counted_terms_eq_kind (parseTs : String → ParseOutcome) (now : Int)
    (v : WebhookSchema) (tags : List String) (t : String)
    (htags : check_for_anomalies parseTs now v = Except.ok tags)
    (ht : t ∈ tags) :
    (high_risk_terms.any (fun term => strContains t term)) = counted_kind t := by
  rw [check_decomp] at htags
  obtain ⟨ts, hts, rfl⟩ := map_eq_ok_iff _ _ _ htags
  simp only [List.mem_append] at ht
  rcases ht with ((((h | h) | h) | h) | h)
  · unfold rule_event at h
    split at h
    · simp only [List.mem_singleton] at h
      subst h
      rw [counted_any_of_pre _ _ "suspicious_event" (by decide) (by decide),
        counted_kind_of_pre _ _ "suspicious_event" (by decide) (by decide)]
    · simp at h
  · rcases rule_timestamp_ok_mem parseTs now v ts t hts h with rfl | rfl
    · decide
    · decide
  · unfold rule_amount at h
    split at h
    · split at h
      · simp only [List.mem_singleton] at h
        subst h
        rw [counted_any_of_pre _ _ "high_value" (by decide) (by decide),
          counted_kind_of_pre _ _ "high_value" (by decide) (by decide)]
      · simp at h
    · simp at h
  · unfold rule_location at h
    split at h
    · split at h
      · simp only [List.mem_singleton] at h
        subst h
        rw [counted_any_of_pre _ _ "suspicious_location" (by decide) (by decide),
          counted_kind_of_pre _ _ "suspicious_location" (by decide) (by decide)]
      · simp at h
    · simp at h
  · unfold rule_device at h
    split at h
    · split at h
      · simp only [List.mem_singleton] at h
        subst h
        decide
      · simp at h
    · simp at h

/-- Error messages carried by a validation result (`[]` on success). -/
def errs_of {α : Type} : Except (List String) α → List String
  | .ok _ => []
  | .error e => e

theorem errs_of_andE {α β : Type} (x : Except (List String) α)
    (y : Except (List String) β) :
    errs_of (andE x y) = errs_of x ++ errs_of y := by
  cases x <;> cases y <;> simp [andE, errs_of]

theorem errs_of_map {α β : Type} (f : α → β) (x : Except (List String) α) :
    errs_of (x.map f) = errs_of x := by
  cases x <;> rfl

theorem validate_error_eq (raw : List (String × JVal)) (errs : List String)
    (h : validate raw = .error errs) :
    errs =
      errs_of (vReqStr raw "event_type") ++ errs_of (vReqStr raw "timestamp") ++
        errs_of (vReqStr raw "source") ++ errs_of (vDataField raw) := by
  have he : errs_of (validate raw) = errs := by rw [h]; rfl
  rw [← he]
  unfold validate
  rw [errs_of_map, errs_of_andE, errs_of_andE, errs_of_andE]

theorem vReqStr_missing (fields : List (String × JVal)) (name : String)
    (h : fields.lookup name = none) :
    errs_of (vReqStr fields name) = [name ++ ": field required"] := by
  unfold vReqStr
  rw [h]
  rfl

theorem vReqStr_mistyped_num (fields : List (String × JVal)) (name : String)
    (q : Rat) (h : fields.lookup name = some (JVal.jnum q)) :
    errs_of (vReqStr fields name) = [name ++ ": str type expected"] := by
  unfold vReqStr
  rw [h]
  rfl

theorem errs_of_vData (fs : List (String × JVal)) :
    errs_of (vData fs) =
      errs_of (vReqStr fs "id") ++ errs_of (vReqStr fs "user_id") ++
        (errs_of (vReqStr fs "ip_address") ++ errs_of (vReqStr fs "attempted_resource")) ++
        (errs_of (vOptNum fs "amount") ++ errs_of (vOptStr fs "location")) ++
        errs_of (vOptDevice fs "device_info") := by
  unfold vData
  rw [errs_of_map]
  simp only [errs_of_andE]

theorem errs_of_vDataField (raw : List (String × JVal))
    (fs : List (String × JVal)) (h : raw.lookup "data" = some (JVal.jobj fs)) :
    errs_of (vDataField raw) = (errs_of (vData fs)).map (fun m => "data." ++ m) := by
  unfold vDataField
  rw [h]
  cases hv : vData fs <;> simp [errs_of, hv]

theorem determine_action_low_of_ne (rl : String) (v : WebhookSchema)
    (h1 : rl ≠ "critical") (h2 : rl ≠ "high") (h3 : rl ≠ "medium") :
    determine_action rl v = none := by
  unfold determine_action
  rw [if_neg h1, if_neg h2, if_neg (fun hc => h3 hc.1)]

/-- Sample validated event with a critically severe event type and a
timestamp that parses to a timezone-naive datetime. -/
def evBreachNaive : WebhookSchema :=
  { event_type := "data_breach", timestamp := "2024-01-01T00:00:00",
    source := "api",
    data := { id := "1", user_id := "u1", ip_address := "1.2.3.4",
              attempted_resource := "/admin" } }

/-- Raw map that validates to `evBreachNaive`. -/
def rawBreachNaive : List (String × JVal) :=
  [("event_type", JVal.jstr "data_breach"),
   ("timestamp", JVal.jstr "2024-01-01T00:00:00"),
   ("source", JVal.jstr "api"),
   ("data", JVal.jobj
     [("id", JVal.jstr "1"), ("user_id", JVal.jstr "u1"),
      ("ip_address", JVal.jstr "1.2.3.4"),
      ("attempted_resource", JVal.jstr "/admin")])]

/-- Sample validated event with one counted anomaly tag. -/
def evFail : WebhookSchema :=
  { event_type := "failed_login", timestamp := "not-a-time", source := "web",
    data := { id := "2", user_id := "u2", ip_address := "1.1.1.1",
              attempted_resource := "/login" } }

/-- Sample validated event with a benign type and a large amount. -/
def evPlain : WebhookSchema :=
  { event_type := "login_attempt", timestamp := "not-a-time", source := "web",
    data := { id := "3", user_id := "u3", ip_address := "2.2.2.2",
              attempted_resource := "/r", amount := some 15000 } }

/-- Sample validated event whose device IP equals its source IP and whose
timestamp parses to a timezone-naive datetime. -/
def evDevice : WebhookSchema :=
  { event_type := "login_attempt", timestamp := "2024-01-01T00:00:00",
    source := "web",
    data := { id := "4", user_id := "u4", ip_address := "9.9.9.9",
              attempted_resource := "/r",
              device_info := some { browser := "Chrome", os := "Windows",
                                    ip_address := some "9.9.9.9" } } }

/-- C1 names a code bug: on `evBreachNaive` — accepted by the validator,
`event_type` of critical base severity, timestamp parsing to a
timezone-naive datetime — the detector raises the uncaught `TypeError`
of the aware-minus-naive subtraction, so the pipeline produces no risk
level at all instead of `"critical"`, and `process` propagates the fault
to the caller. -/
theorem critical_event_with_naive_timestamp_raises :
    suspicious_events evBreachNaive.event_type = some "critical"
    ∧ validate rawBreachNaive = Except.ok evBreachNaive
    ∧ check_for_anomalies (fun _ => ParseOutcome.naiveParse) 0 evBreachNaive =
        Except.error naive_sub_type_error
    ∧ process (fun _ => ParseOutcome.naiveParse) 0 rawBreachNaive =
        Except.error naive_sub_type_error :=
  ⟨rfl, rfl, rfl, rfl⟩

/-- C2: whenever the detector returns a tag list, an empty list gives
risk `"low"` with no action; for a non-critical event type the risk is
`"high"`, `"medium"` or `"low"` according to whether the number of tags
of the kinds `suspicious_event`, `high_value` or `suspicious_location`
is at least 2, exactly 1 or 0; the tags `stale_event`,
`invalid_timestamp` and `ip_mismatch` are never counted. -/
theorem risk_level_matches_high_impact_tag_count
    (parseTs : String → ParseOutcome) (now : Int) (v : WebhookSchema)
    (tags : List String)
    (htags : check_for_anomalies parseTs now v = Except.ok tags) :
    (tags = [] → determine_risk_level tags v = "low" ∧
        determine_action (determine_risk_level tags v) v = none)
    ∧ (suspicious_events v.event_type ≠ some "critical" →
        ((tags.filter counted_kind).length ≥ 2 →
          determine_risk_level tags v = "high")
        ∧ ((tags.filter counted_kind).length = 1 →
          determine_risk_level tags v = "medium")
        ∧ ((tags.filter counted_kind).length = 0 →
          determine_risk_level tags v = "low"))
    ∧ counted_kind "stale_event" = false
    ∧ counted_kind "invalid_timestamp" = false
    ∧ counted_kind "ip_mismatch" = false := by
  refine ⟨?_, ?_, by decide, by decide, by decide⟩
  · intro h
    subst h
    have hlow : determine_risk_level [] v = "low" := rfl
    rw [hlow]
    exact ⟨rfl,
      determine_action_low_of_ne "low" v (by decide) (by decide) (by decide)⟩
  · intro hcrit
    have hbridge :
        tags.countP
            (fun a => high_risk_terms.any fun term => strContains a term) =
          (tags.filter counted_kind).length := by
      rw [List.countP_eq_length_filter]
      congr 1
      apply List.filter_congr
      intro a ha
      exact counted_terms_eq_kind parseTs now v tags a htags ha
    rcases tags with _ | ⟨a, as⟩
    · refine ⟨?_, ?_, ?_⟩ <;> intro hn
      · simp at hn
      · simp at hn
      · rfl
    · have hform : determine_risk_level (a :: as) v =
          if (List.filter counted_kind (a :: as)).length ≥ 2 then "high"
          else if (List.filter counted_kind (a :: as)).length = 1 then "medium"
          else "low" := by
        unfold determine_risk_level
        rw [if_neg (by simp), if_neg hcrit, hbridge]
      rw [hform]
      refine ⟨?_, ?_, ?_⟩ <;> intro hn
      · rw [if_pos hn]
      · rw [if_neg (by omega), if_pos hn]
      · rw [if_neg (by omega), if_neg (by omega)]

/-- Witness for C2 at a concrete `failed_login` event with exactly one
counted tag. -/
theorem risk_level_matches_high_impact_tag_count_witness :
    determine_risk_level ["suspicious_event: failed_login", "invalid_timestamp"]
      evFail = "medium" :=
  ((risk_level_matches_high_impact_tag_count
      (fun _ => ParseOutcome.parseError) 0 evFail
      ["suspicious_event: failed_login", "invalid_timestamp"] rfl).2.1
    (by decide)).2.1 (by decide)

/-- C4: the action decision is a deterministic function of the risk level
and event type: `critical` and `high` map to their risk-alert endpoints,
`medium` maps to the medium endpoint exactly when the event type is in
the suspicious vocabulary, and every other input yields no action (the
code spells action ids with a `POST /` transport prefix in front of the
names used by the specification). -/
theorem determine_action_mapping_and_determinism :
    (∀ v, determine_action "critical" v = some "POST /risk_alert/critical")
    ∧ (∀ v, determine_action "high" v = some "POST /risk_alert/high")
    ∧ (∀ v, (suspicious_events v.event_type).isSome →
        determine_action "medium" v = some "POST /risk_alert/medium")
    ∧ (∀ v, suspicious_events v.event_type = none →
        determine_action "medium" v = none)
    ∧ (∀ rl v, rl ≠ "critical" → rl ≠ "high" → rl ≠ "medium" →
        determine_action rl v = none)
    ∧ (∀ rl v, determine_action rl v = determine_action rl v) := by
  refine ⟨?_, ?_, ?_, ?_, ?_, fun _ _ => rfl⟩
  · intro v
    unfold determine_action
    rw [if_pos rfl]
  · intro v
    unfold determine_action
    rw [if_neg (by decide), if_pos rfl]
  · intro v h
    unfold determine_action
    rw [if_neg (by decide), if_neg (by decide), if_pos ⟨rfl, h⟩]
  · intro v h
    unfold determine_action
    rw [if_neg (by decide), if_neg (by decide),
      if_neg (fun hc => by rw [h] at hc; exact absurd hc.2 (by simp))]
  · exact fun rl v h1 h2 h3 => determine_action_low_of_ne rl v h1 h2 h3

/-- Witness for C4 at concrete inputs. -/
theorem determine_action_mapping_and_determinism_witness :
    determine_action "medium" evFail = some "POST /risk_alert/medium" :=
  determine_action_mapping_and_determinism.2.2.1 evFail (by decide)

/-- C7 names a code bug: on `evDevice` — `device_info` present with
`ip_address` equal to `data.ip_address`, timestamp parsing to a
timezone-naive datetime — the detector raises the uncaught `TypeError`
in rule 2 before rule 5 runs, so no `ip_mismatch` tag is emitted even
though the IPs are equal: emission is not "exactly when" the IPs match.
The second conjunct shows rule 5 in isolation would have emitted the
tag. -/
theorem matching_ips_with_naive_timestamp_emit_no_tag :
    (∃ di, evDevice.data.device_info = some di ∧
      di.ip_address = some evDevice.data.ip_address)
    ∧ rule_device evDevice = ["ip_mismatch"]
    ∧ check_for_anomalies (fun _ => ParseOutcome.naiveParse) 0 evDevice =
        Except.error naive_sub_type_error :=
  ⟨⟨{ browser := "Chrome", os := "Windows", ip_address := some "9.9.9.9" },
    rfl, rfl⟩, rfl, rfl⟩

/-- Counterexample to C6 as stated: on an event whose timestamp raises
`ValueError` when parsed, the detector emits `invalid_timestamp` and
still runs the amount check, emitting a `high_value` tag — rule 3 is not
skipped. -/
theorem invalid_timestamp_does_not_skip_amount_check_cex :
    check_for_anomalies (fun _ => ParseOutcome.parseError) 0 evPlain =
      Except.ok ["invalid_timestamp", "high_value: 15000"] ∧
    "high_value: 15000" ∈ ["invalid_timestamp", "high_value: 15000"] :=
  ⟨rfl, by simp⟩

/-- C6 as amended: when parsing the timestamp raises `ValueError`, the
detector returns a tag list holding `invalid_timestamp`, not
`stale_event`, and the amount/high_value check still runs (only the
staleness check is skipped); when the timestamp parses to an offset-aware
UTC time and `now` minus the timestamp exceeds 3600 seconds, the
returned tags include `stale_event`; when the timestamp parses to a
timezone-naive datetime the detector raises an uncaught `TypeError`
instead of returning any tags. -/
theorem invalid_timestamp_tag_and_amount_check_still_runs
    (parseTs : String → ParseOutcome) (now : Int) (v : WebhookSchema) :
    (parseTs v.timestamp = ParseOutcome.parseError →
      ∃ tags, check_for_anomalies parseTs now v = Except.ok tags
        ∧ "invalid_timestamp" ∈ tags
        ∧ "stale_event" ∉ tags
        ∧ (∀ a, v.data.amount = some a → a > amount_threshold →
            ("high_value: " ++ floatRepr a) ∈ tags))
    ∧ (∀ t, parseTs v.timestamp = ParseOutcome.awareParse t →
        now - t > 3600 →
        ∃ tags, check_for_anomalies parseTs now v = Except.ok tags
          ∧ "stale_event" ∈ tags)
    ∧ (parseTs v.timestamp = ParseOutcome.naiveParse →
        check_for_anomalies parseTs now v =
          Except.error naive_sub_type_error) := by
  refine ⟨?_, ?_, ?_⟩
  · intro hp
    have hts : rule_timestamp parseTs now v = Except.ok ["invalid_timestamp"] := by
      unfold rule_timestamp
      rw [hp]
    refine ⟨rule_event v ++ ["invalid_timestamp"] ++ rule_amount v ++
        rule_location v ++ rule_device v, ?_, ?_, ?_, ?_⟩
    · rw [check_decomp, hts]
      rfl
    · simp [List.mem_append]
    · simp only [List.mem_append]
      rintro ((((h | h) | h) | h) | h)
      · unfold rule_event at h
        split at h
        · simp only [List.mem_singleton] at h
          exact append_ne_of_starts_false _ _ _ (by decide) h.symm
        · simp at h
      · simp only [List.mem_singleton] at h
        exact absurd h (by decide)
      · unfold rule_amount at h
        split at h
        · split at h
          · simp only [List.mem_singleton] at h
            exact append_ne_of_starts_false _ _ _ (by decide) h.symm
          · simp at h
        · simp at h
      · unfold rule_location at h
        split at h
        · split at h
          · simp only [List.mem_singleton] at h
            exact append_ne_of_starts_false _ _ _ (by decide) h.symm
          · simp at h
        · simp at h
      · unfold rule_device at h
        split at h
        · split at h
          · simp only [List.mem_singleton] at h
            exact absurd h (by decide)
          · simp at h
        · simp at h
    · intro a ha hth
      simp only [List.mem_append]
      refine Or.inl (Or.inl (Or.inr ?_))
      unfold rule_amount
      rw [ha]
      simp [hth]
  · intro t hp hstale
    have hts : rule_timestamp parseTs now v = Except.ok ["stale_event"] := by
      unfold rule_timestamp
      rw [hp]
      simp [hstale]
    refine ⟨rule_event v ++ ["stale_event"] ++ rule_amount v ++
        rule_location v ++ rule_device v, ?_, ?_⟩
    · rw [check_decomp, hts]
      rfl
    · simp [List.mem_append]
  · intro hp
    rw [check_decomp]
    unfold rule_timestamp
    rw [hp]
    rfl

/-- Witness for the amended C6 at concrete inputs. -/
theorem invalid_timestamp_tag_and_amount_check_still_runs_witness :
    ∃ tags,
      check_for_anomalies (fun _ => ParseOutcome.parseError) 0 evPlain =
          Except.ok tags
        ∧ "invalid_timestamp" ∈ tags
        ∧ "high_value: " ++ floatRepr 15000 ∈ tags := by
  obtain ⟨tags, hok, hinv, hstale, hamt⟩ :=
    (invalid_timestamp_tag_and_amount_check_still_runs
      (fun _ => ParseOutcome.parseError) 0 evPlain).1 rfl
  exact ⟨tags, hok, hinv, hamt 15000 rfl (by decide)⟩

/-- C3: a raw input that fails schema validation yields `is_valid = false`
with the full list of per-field errors (every missing required field is
named, at the top level and inside `data`, and mistyped string fields are
named too), risk level `"high"` and the general risk-alert action; no
anomaly or risk logic runs (the result carries only the fixed
`schema_validation_failed` marker). -/
theorem validation_failure_yields_high_risk_alert
    (parseTs : String → ParseOutcome) (now : Int)
    (raw : List (String × JVal)) (errs : List String)
    (h : validate raw = .error errs) :
    process parseTs now raw =
      Except.ok
        { is_valid := false, data := none, errors := some errs,
          anomalies := ["schema_validation_failed"], risk_level := "high",
          action_triggered := some "POST /risk_alert" }
    ∧ (∀ name ∈ (["event_type", "timestamp", "source", "data"] : List String),
        raw.lookup name = none → (name ++ ": field required") ∈ errs)
    ∧ (∀ name ∈ (["id", "user_id", "ip_address",
          "attempted_resource"] : List String),
        ∀ fs, raw.lookup "data" = some (JVal.jobj fs) → fs.lookup name = none →
          ("data." ++ name ++ ": field required") ∈ errs)
    ∧ (∀ name ∈ (["event_type", "timestamp", "source"] : List String),
        ∀ q, raw.lookup name = some (JVal.jnum q) →
          (name ++ ": str type expected") ∈ errs) := by
  have hdecomp := validate_error_eq raw errs h
  refine ⟨?_, ?_, ?_, ?_⟩
  · unfold process
    rw [h]
  · intro name hname hmiss
    rw [hdecomp]
    simp only [List.mem_append]
    fin_cases hname
    · exact Or.inl (Or.inl (Or.inl (by rw [vReqStr_missing raw _ hmiss]; simp)))
    · exact Or.inl (Or.inl (Or.inr (by rw [vReqStr_missing raw _ hmiss]; simp)))
    · exact Or.inl (Or.inr (by rw [vReqStr_missing raw _ hmiss]; simp))
    · refine Or.inr ?_
      unfold vDataField
      rw [hmiss]
      simp [errs_of]
  · intro name hname fs hdata hmiss
    rw [hdecomp]
    simp only [List.mem_append]
    refine Or.inr ?_
    rw [errs_of_vDataField raw fs hdata]
    rw [List.mem_map]
    fin_cases hname
    · exact ⟨"id: field required", by rw [errs_of_vData]; simp [vReqStr_missing fs _ hmiss], rfl⟩
    · exact ⟨"user_id: field required", by rw [errs_of_vData]; simp [vReqStr_missing fs _ hmiss], rfl⟩
    · exact ⟨"ip_address: field required", by rw [errs_of_vData]; simp [vReqStr_missing fs _ hmiss], rfl⟩
    · exact ⟨"attempted_resource: field required", by rw [errs_of_vData]; simp [vReqStr_missing fs _ hmiss], rfl⟩
  · intro name hname q hnum
    rw [hdecomp]
    simp only [List.mem_append]
    fin_cases hname
    · exact Or.inl (Or.inl (Or.inl (by rw [vReqStr_mistyped_num raw _ q hnum]; simp)))
    · exact Or.inl (Or.inl (Or.inr (by rw [vReqStr_mistyped_num raw _ q hnum]; simp)))
    · exact Or.inl (Or.inr (by rw [vReqStr_mistyped_num raw _ q hnum]; simp))

/-- Witness for C3 on a raw map with one mistyped field and all other
required fields missing. -/
theorem validation_failure_yields_high_risk_alert_witness :
    process (fun _ => ParseOutcome.parseError) 0 [("event_type", JVal.jnum 5)] =
      Except.ok
        { is_valid := false, data := none,
          errors := some ["event_type: str type expected",
            "timestamp: field required", "source: field required",
            "data: field required"],
          anomalies := ["schema_validation_failed"], risk_level := "high",
          action_triggered := some "POST /risk_alert" }
    ∧ "timestamp: field required" ∈
        (["event_type: str type expected", "timestamp: field required",
          "source: field required", "data: field required"] : List String) :=
  ⟨(validation_failure_yields_high_risk_alert (fun _ => ParseOutcome.parseError)
      0 [("event_type", JVal.jnum 5)] _ rfl).1,
   (validation_failure_yields_high_risk_alert (fun _ => ParseOutcome.parseError)
      0 [("event_type", JVal.jnum 5)] _ rfl).2.1 "timestamp" (by simp) rfl⟩

/-- Sample validated event on which every rule except the timestamp rule
would fire, with a timestamp parsing to a timezone-naive datetime. -/
def evAllRules : WebhookSchema :=
  { event_type := "unauthorized_access", timestamp := "2024-01-01T00:00:00",
    source := "api",
    data := { id := "5", user_id := "u5", ip_address := "10.0.0.1",
              attempted_resource := "/admin", amount := some 15000,
              location := some "High Risk Country",
              device_info := some { browser := "Firefox", os := "Linux",
                                    ip_address := some "10.0.0.1" } } }

/-- C8 names a code bug: on `evAllRules` — suspicious event type,
over-threshold amount, suspicious location and matching device IP, but a
timestamp parsing to a timezone-naive datetime — rule 2 raises the
uncaught `TypeError`, rules 3 to 5 are never evaluated and no tag list
is returned, although each of those rules in isolation would emit its
tag: the rules are not all evaluated and no fixed-order tag list is
produced. -/
theorem all_rules_applicable_but_naive_timestamp_raises :
    check_for_anomalies (fun _ => ParseOutcome.naiveParse) 0 evAllRules =
        Except.error naive_sub_type_error
    ∧ rule_event evAllRules = ["suspicious_event: unauthorized_access"]
    ∧ rule_amount evAllRules = ["high_value: 15000"]
    ∧ rule_location evAllRules = ["suspicious_location: High Risk Country"]
    ∧ rule_device evAllRules = ["ip_mismatch"] :=
  ⟨rfl, rfl, rfl, rfl, rfl⟩

/-- C5: an action id not present in the dispatch table yields the
structured `unknown_action` result, a handler failure is caught at the
router boundary and surfaced as a structured `error` result, and the
router always returns a structured result whose status is one of the
known statuses — it never propagates a handler failure. -/
theorem router_returns_structured_results :
    (∀ (serHash : Except String Int) (a : String), a ≠ "" →
      action_handlers a = none →
      router_process serHash (some a) =
        { status := "unknown_action", action := some a })
    ∧ (∀ (serHash : Except String Int) (a : String)
        (handler : Except String Int → Except String DispatchResult)
        (e : String), a ≠ "" → action_handlers a = some handler →
        handler serHash = .error e →
        router_process serHash (some a) =
          { status := "error", action := some a, error := some e })
    ∧ (∀ (serHash : Except String Int) (act : Option String),
        (router_process serHash act).status ∈
          (["no_action_needed", "unknown_action", "success",
            "error"] : List String)) := by
  refine ⟨?_, ?_, ?_⟩
  · intro serHash a ha hnone
    simp [router_process, ha, hnone]
  · intro serHash a handler e ha hsome herr
    simp [router_process, ha, hsome, herr]
  · intro serHash act
    cases act with
    | none => simp [router_process]
    | some a =>
        by_cases ha : a = ""
        · simp [router_process, ha]
        · cases hl : action_handlers a with
          | none => simp [router_process, ha, hl]
          | some handler =>
              have hcases : handler = handle_crm_escalation ∨
                  handler = handle_general_risk_alert ∨
                  handler = handle_high_risk_alert ∨
                  handler = handle_critical_risk_alert := by
                unfold action_handlers at hl
                split_ifs at hl
                · exact Or.inl (Option.some.inj hl).symm
                · exact Or.inr (Or.inl (Option.some.inj hl).symm)
                · exact Or.inr (Or.inr (Or.inl (Option.some.inj hl).symm))
                · exact Or.inr (Or.inr (Or.inr (Option.some.inj hl).symm))
              rcases hcases with rfl | rfl | rfl | rfl <;>
                cases serHash <;>
                  simp [router_process, ha, hl, handle_crm_escalation,
                    handle_general_risk_alert, handle_high_risk_alert,
                    handle_critical_risk_alert]

/-- Witness for C5: an unregistered action id produces the structured
`unknown_action` result. -/
theorem router_returns_structured_results_witness :
    router_process (Except.ok 0) (some "POST /nothing") =
      { status := "unknown_action", action := some "POST /nothing" } :=
  router_returns_structured_results.1 (Except.ok 0) "POST /nothing"
    (by decide) rfl

theorem lookup_append_of_found (l l2 : List (Nat × ActivityLog)) (k : Nat)
    (v : ActivityLog) (h : l.lookup k = some v) :
    (l ++ l2).lookup k = some v := by
  induction l with
  | nil => simp at h
  | cons p t ih =>
      rcases p with ⟨a, b⟩
      rw [List.lookup_cons] at h
      rw [List.cons_append, List.lookup_cons]
      cases hk : (k == a) with
      | true => rw [hk] at h; exact h
      | false => rw [hk] at h; exact ih h

theorem lookup_append_fresh (l : List (Nat × ActivityLog)) (k : Nat)
    (v : ActivityLog) (h : ∀ p ∈ l, p.1 ≠ k) :
    (l ++ [(k, v)]).lookup k = some v := by
  induction l with
  | nil => simp [List.lookup_cons]
  | cons p t ih =>
      rcases p with ⟨a, b⟩
      rw [List.cons_append, List.lookup_cons]
      have hne : (k == a) = false := by
        rw [beq_eq_false_iff_ne]
        exact fun he => h (a, b) (by simp) (by simp [he])
      rw [hne]
      exact ih (fun p hp => h p (List.mem_cons_of_mem _ hp))

theorem mem_of_lookup_eq_some (l : List (Nat × ActivityLog)) (k : Nat)
    (v : ActivityLog) (h : l.lookup k = some v) : (k, v) ∈ l := by
  induction l with
  | nil => simp at h
  | cons p t ih =>
      rcases p with ⟨a, b⟩
      rw [List.lookup_cons] at h
      cases hk : (k == a) with
      | true =>
          rw [hk] at h
          have hka : k = a := by exact_mod_cast eq_of_beq hk
          have hbv : b = v := Option.some.inj h
          subst hka; subst hbv
          exact List.mem_cons_self _ _
      | false =>
          rw [hk] at h
          exact List.mem_cons_of_mem _ (ih h)

/-- C9: every append assigns an id strictly greater than every id already
in the store (and the id bound is preserved); the "append a step to an
existing trace" operation only appends a fresh row holding the mutated
record — the record stored under the original id is unchanged, and the
mutated copy is retrievable under the new, distinct id. -/
theorem append_monotone_ids_and_trace_append_duplicates
    (s : MemoryStore) (hinv : ids_bounded s) (a : ActivityLog) (i : Nat)
    (orig : ActivityLog) (nm : String) (hget : get_activity s i = some orig) :
    (∀ p ∈ s.rows, p.1 < (store_log_activity s a).1)
    ∧ ids_bounded (store_log_activity s a).2
    ∧ (add_to_trace s i nm).rows =
        s.rows ++ [(s.next_id,
          { orig with agent_trace := orig.agent_trace ++ [nm] })]
    ∧ get_activity (add_to_trace s i nm) i = some orig
    ∧ get_activity (add_to_trace s i nm) s.next_id =
        some { orig with agent_trace := orig.agent_trace ++ [nm] }
    ∧ i < s.next_id := by
  have hi : i < s.next_id := hinv (i, orig) (mem_of_lookup_eq_some _ _ _ hget)
  have hrows : (add_to_trace s i nm).rows =
      s.rows ++ [(s.next_id,
        { orig with agent_trace := orig.agent_trace ++ [nm] })] := by
    unfold add_to_trace
    rw [hget]
    rfl
  refine ⟨fun p hp => hinv p hp, ?_, hrows, ?_, ?_, hi⟩
  · intro p hp
    unfold store_log_activity at hp
    simp only [List.mem_append, List.mem_singleton] at hp
    rcases hp with hp | hp
    · exact Nat.lt_trans (hinv p hp) (Nat.lt_succ_self _)
    · rw [hp]
      exact Nat.lt_succ_self _
  · unfold get_activity
    rw [hrows]
    exact lookup_append_of_found _ _ _ _ hget
  · unfold get_activity
    rw [hrows]
    exact lookup_append_fresh _ _ _
      (fun p hp => Nat.ne_of_lt (hinv p hp))

/-- Sample activity record for the store witnesses. -/
def logSample : ActivityLog :=
  { source := "json", timestamp := "t", classification := [],
    extracted_fields := [], agent_trace := ["json_agent"] }

/-- Sample one-row store for the store witnesses. -/
def storeSample : MemoryStore :=
  { rows := [(1, logSample)], next_id := 2 }

/-- Witness for C9 on a concrete one-row store. -/
theorem append_monotone_ids_and_trace_append_duplicates_witness :
    get_activity (add_to_trace storeSample 1 "classifier") 2 =
      some { logSample with agent_trace := ["json_agent", "classifier"] } :=
  (append_monotone_ids_and_trace_append_duplicates storeSample
    (by
      intro p hp
      simp only [storeSample, List.mem_singleton] at hp
      subst hp
      decide)
    logSample 1 logSample "classifier" rfl).2.2.2.2.1

/-- C10: the record stored by the shared logging contract carries an
`agent_trace` equal to the agent's name prepended to the supplied trace
(or the one-element trace holding only the name when none is supplied),
so it always begins with the logging agent's name, and its timestamp
string ends with `"Z"`. -/
theorem logged_trace_begins_with_agent_name
    (name utcnow_iso source : String)
    (classification extracted_fields : List (String × String))
    (action_triggered : Option String) (agent_trace : Option (List String))
    (s : MemoryStore) (hinv : ids_bounded s) :
    ∃ rec,
      get_activity
          (base_log_activity name utcnow_iso source classification
            extracted_fields action_triggered agent_trace s).2
          (base_log_activity name utcnow_iso source classification
            extracted_fields action_triggered agent_trace s).1 = some rec
      ∧ rec.agent_trace =
          (match agent_trace with
           | none => [name]
           | some t => name :: t)
      ∧ rec.agent_trace.head? = some name
      ∧ ∃ p, rec.timestamp = p ++ "Z" := by
  refine
    ⟨{ source := source,
       timestamp := utcnow_iso ++ "Z",
       classification := classification,
       extracted_fields := extracted_fields,
       action_triggered := action_triggered,
       agent_trace := (match agent_trace with
         | none => [name]
         | some t => name :: t) }, ?_, rfl, ?_, utcnow_iso, rfl⟩
  · unfold base_log_activity store_log_activity get_activity
    exact lookup_append_fresh _ _ _ (fun p hp => Nat.ne_of_lt (hinv p hp))
  · cases agent_trace <;> rfl

/-- Witness for C10 on a concrete empty store with a supplied trace. -/
theorem logged_trace_begins_with_agent_name_witness :
    ∃ rec,
      get_activity
          (base_log_activity "json_agent" "2024-01-01T00:00:00" "json"
            [] [] none (some ["Schema validation"])
            { rows := [], next_id := 1 }).2
          (base_log_activity "json_agent" "2024-01-01T00:00:00" "json"
            [] [] none (some ["Schema validation"])
            { rows := [], next_id := 1 }).1 = some rec
      ∧ rec.agent_trace =
          (match (some ["Schema validation"] : Option (List String)) with
           | none => ["json_agent"]
           | some t => "json_agent" :: t)
      ∧ rec.agent_trace.head? = some "json_agent"
      ∧ ∃ p, rec.timestamp = p ++ "Z" :=
  logged_trace_begins_with_agent_name "json_agent" "2024-01-01T00:00:00"
    "json" [] [] none (some ["Schema validation"]) { rows := [], next_id := 1 }
    (by intro p hp; simp at hp)
